import Mathlib

/-
Verification of the embypy object-resolution and caching core.

The development shallowly embeds the code of src/embypy/emby.py and
src/embypy/objects/videos.py.  The transport boundary (Connector), the
Resolver (EmbyObject.process, in embypy/objects/object.py) and the
dual-mode call wrapper (embypy/utils/asyncio.py) are not part of the
given sources; where a definition depends on them it is modelled from
the specification, as indicated in its doc comment.

Stateful methods of the Emby root object become explicit state-passing
functions: each takes a Transport (the oracle of server responses) and
an EmbyState (the extras cache) and returns its value, the next state,
and the list of transport requests it issued.
-/

/-- Raw server record.  The fields rid and rtype embed the JSON fields
Id and Type (Type is a reserved word in Lean). -/
structure Rec where
  rid : String
  rtype : String
deriving DecidableEq

/-- Modelled from the spec: a resolved entity, produced by the Type
Registry and constructors of embypy/objects/object.py (not under src/).
Only the id and the type tag are relevant to the claims: the field
`type` is what `x.type` reads in Emby.search. -/
structure Entity where
  id : String
  type : String
deriving DecidableEq

/-- Modelled from the spec: classification and construction of an entity
from a raw record (Type Registry, section 4.1 of the spec); no network
call is involved for a record input. -/
def resolveRec (r : Rec) : Entity :=
  ⟨r.rid, r.rtype⟩

/-- Modelled from the spec: the inputs accepted by the Resolver
`process` (section 4.2 of the spec; embypy/objects/object.py is not
under src/): an already-resolved entity, a raw record, or a bare
identifier string. -/
inductive PInput where
  | entity (e : Entity)
  | record (r : Rec)
  | ident (s : String)
deriving DecidableEq

/-- Modelled from the spec: resolving one input (section 4.2).  The
first component is the result (a decode failure of fetchRaw propagates
as an error); the second component counts the transport fetches
performed: one for a bare identifier, none otherwise. -/
def processOne (fetchRaw : String → Except Unit Rec) : PInput → Except Unit Entity × Nat
  | .entity e => (.ok e, 0)
  | .record r => (.ok (resolveRec r), 0)
  | .ident s => ((fetchRaw s).map resolveRec, 1)

/-- Modelled from the spec: resolving a sequence of inputs (section 4.2);
each element is resolved and the returned sequence preserves input
order.  Concurrency of the underlying fetches is abstracted away: only
the order of the returned sequence is modelled. -/
def processList (fetchRaw : String → Except Unit Rec) : List PInput → Except Unit (List Entity)
  | [] => .ok []
  | x :: xs =>
    match (processOne fetchRaw x).1, processList fetchRaw xs with
    | .ok e, .ok es => .ok (e :: es)
    | .error u, _ => .error u
    | .ok _, .error u => .error u

/-- Resolving a list of raw records, as done by `await self.process(items)`
on the JSON returned by a collection query: each record is classified
and constructed, no fetch is involved. -/
def processRecs (rs : List Rec) : List Entity :=
  rs.map resolveRec

/-- One request issued against the transport boundary: the path and the
keyword parameters passed to Connector.getJson. -/
structure Request where
  path : String
  params : List (String × String)
deriving DecidableEq

/-- The transport boundary: Connector.getJson, as an oracle from a path
and parameters to the list of raw records of the response (the
unwrapping of the Items envelope is part of the Resolver and is
absorbed into the oracle). -/
structure Transport where
  getJson : String → List (String × String) → List Rec

/-- The mutable state of the Emby root object: self.extras, the cache
mapping a collection key to its previously resolved sequence.  Embedded
as an association list in dict insertion order. -/
structure EmbyState where
  extras : List (String × List Entity)
deriving DecidableEq

/-- Dict assignment self.extras[key] = value: replace the value in
place when the key is present, append otherwise. -/
def setExtra : List (String × List Entity) → String → List Entity → List (String × List Entity)
  | [], k, v => [(k, v)]
  | (k', v') :: rest, k, v =>
    if k' = k then (k, v) :: rest else (k', v') :: setExtra rest k v

/-- Parameters of an item-collection query, embedding the keyword
arguments of the getJson calls in the *_force accessors of
src/embypy/emby.py (remote=False, format=json, Recursive=true, the
IncludeItemTypes filter, the Fields projection, SortBy=SortName,
SortOrder=Ascending). -/
def itemsRequest (itemType fieldsStr : String) : Request :=
  ⟨"/Users/{UserId}/Items",
   [("remote", "False"), ("format", "json"), ("Recursive", "true"),
    ("IncludeItemTypes", itemType), ("Fields", fieldsStr),
    ("SortBy", "SortName"), ("SortOrder", "Ascending")]⟩

/-- Embeds Emby.albums_force (src/embypy/emby.py lines 224-239). -/
def albums_force (t : Transport) (s : EmbyState) : List Entity × EmbyState × List Request :=
  let req := itemsRequest "MusicAlbum" "Path,ParentId,Overview,Genres,Tags,Artists"
  let items := processRecs (t.getJson req.path req.params)
  (items, ⟨setExtra s.extras "albums" items⟩, [req])

/-- Embeds Emby.albums (src/embypy/emby.py lines 208-222):
self.extras.get(key) or await self.albums_force, with Python truthiness
of the cached list. -/
def albums (t : Transport) (s : EmbyState) : List Entity × EmbyState × List Request :=
  let cachedVal := (s.extras.lookup "albums").getD []
  if cachedVal = [] then albums_force t s else (cachedVal, s, [])

/-- Embeds Emby.songs_force (src/embypy/emby.py lines 257-272). -/
def songs_force (t : Transport) (s : EmbyState) : List Entity × EmbyState × List Request :=
  let req := itemsRequest "Audio" "Path,ParentId,Overview,Genres,Tags,Artists"
  let items := processRecs (t.getJson req.path req.params)
  (items, ⟨setExtra s.extras "songs" items⟩, [req])

/-- Embeds Emby.songs (src/embypy/emby.py lines 241-255). -/
def songs (t : Transport) (s : EmbyState) : List Entity × EmbyState × List Request :=
  let cachedVal := (s.extras.lookup "songs").getD []
  if cachedVal = [] then songs_force t s else (cachedVal, s, [])

/-- Embeds Emby.playlists_force (src/embypy/emby.py lines 290-305). -/
def playlists_force (t : Transport) (s : EmbyState) : List Entity × EmbyState × List Request :=
  let req := itemsRequest "Playlist" "Path,ParentId,Overview"
  let items := processRecs (t.getJson req.path req.params)
  (items, ⟨setExtra s.extras "playlists" items⟩, [req])

/-- Embeds Emby.playlists (src/embypy/emby.py lines 274-288). -/
def playlists (t : Transport) (s : EmbyState) : List Entity × EmbyState × List Request :=
  let cachedVal := (s.extras.lookup "playlists").getD []
  if cachedVal = [] then playlists_force t s else (cachedVal, s, [])

/-- Embeds Emby.artists_force (src/embypy/emby.py lines 323-338). -/
def artists_force (t : Transport) (s : EmbyState) : List Entity × EmbyState × List Request :=
  let req := itemsRequest "MusicArtist" "Path,ParentId,Overview,Genres,Tags"
  let items := processRecs (t.getJson req.path req.params)
  (items, ⟨setExtra s.extras "artists" items⟩, [req])

/-- Embeds Emby.artists (src/embypy/emby.py lines 307-321). -/
def artists (t : Transport) (s : EmbyState) : List Entity × EmbyState × List Request :=
  let cachedVal := (s.extras.lookup "artists").getD []
  if cachedVal = [] then artists_force t s else (cachedVal, s, [])

/-- Embeds Emby.movies_force (src/embypy/emby.py lines 356-371). -/
def movies_force (t : Transport) (s : EmbyState) : List Entity × EmbyState × List Request :=
  let req := itemsRequest "Movie" "Path,ParentId,Overview,Genres,Tags,ProviderIds"
  let items := processRecs (t.getJson req.path req.params)
  (items, ⟨setExtra s.extras "movies" items⟩, [req])

/-- Embeds Emby.movies (src/embypy/emby.py lines 340-354). -/
def movies (t : Transport) (s : EmbyState) : List Entity × EmbyState × List Request :=
  let cachedVal := (s.extras.lookup "movies").getD []
  if cachedVal = [] then movies_force t s else (cachedVal, s, [])

/-- Embeds Emby.series_force (src/embypy/emby.py lines 389-404). -/
def series_force (t : Transport) (s : EmbyState) : List Entity × EmbyState × List Request :=
  let req := itemsRequest "Series" "Path,ParentId,Overview,Genres,Tags"
  let items := processRecs (t.getJson req.path req.params)
  (items, ⟨setExtra s.extras "series" items⟩, [req])

/-- Embeds Emby.series (src/embypy/emby.py lines 373-387). -/
def series (t : Transport) (s : EmbyState) : List Entity × EmbyState × List Request :=
  let cachedVal := (s.extras.lookup "series").getD []
  if cachedVal = [] then series_force t s else (cachedVal, s, [])

/-- Embeds Emby.episodes_force (src/embypy/emby.py lines 422-437). -/
def episodes_force (t : Transport) (s : EmbyState) : List Entity × EmbyState × List Request :=
  let req := itemsRequest "Episode" "Path,ParentId,Overview,Genres,Tags"
  let items := processRecs (t.getJson req.path req.params)
  (items, ⟨setExtra s.extras "episodes" items⟩, [req])

/-- Embeds Emby.episodes (src/embypy/emby.py lines 406-420). -/
def episodes (t : Transport) (s : EmbyState) : List Entity × EmbyState × List Request :=
  let cachedVal := (s.extras.lookup "episodes").getD []
  if cachedVal = [] then episodes_force t s else (cachedVal, s, [])

/-- Embeds Emby.devices_force (src/embypy/emby.py lines 455-461). -/
def devices_force (t : Transport) (s : EmbyState) : List Entity × EmbyState × List Request :=
  let req : Request := ⟨"/Devices", [("remote", "False")]⟩
  let items := processRecs (t.getJson req.path req.params)
  (items, ⟨setExtra s.extras "devices" items⟩, [req])

/-- Embeds Emby.devices (src/embypy/emby.py lines 439-453). -/
def devices (t : Transport) (s : EmbyState) : List Entity × EmbyState × List Request :=
  let cachedVal := (s.extras.lookup "devices").getD []
  if cachedVal = [] then devices_force t s else (cachedVal, s, [])

/-- Embeds Emby.users_force (src/embypy/emby.py lines 479-485). -/
def users_force (t : Transport) (s : EmbyState) : List Entity × EmbyState × List Request :=
  let req : Request := ⟨"/Users", [("remote", "False")]⟩
  let items := processRecs (t.getJson req.path req.params)
  (items, ⟨setExtra s.extras "users" items⟩, [req])

/-- Embeds Emby.users (src/embypy/emby.py lines 463-477). -/
def users (t : Transport) (s : EmbyState) : List Entity × EmbyState × List Request :=
  let cachedVal := (s.extras.lookup "users").getD []
  if cachedVal = [] then users_force t s else (cachedVal, s, [])

/-- The collection keys exposed by the Emby root object. -/
inductive CKey where
  | albums | songs | playlists | artists | movies | series | episodes | devices | users
deriving DecidableEq

/-- The cache key (the string used in self.extras) of a collection. -/
def CKey.name : CKey → String
  | .albums => "albums"
  | .songs => "songs"
  | .playlists => "playlists"
  | .artists => "artists"
  | .movies => "movies"
  | .series => "series"
  | .episodes => "episodes"
  | .devices => "devices"
  | .users => "users"

/-- Dispatch to the Forced accessor of a collection key. -/
def forceAccessor : CKey → Transport → EmbyState → List Entity × EmbyState × List Request
  | .albums => albums_force
  | .songs => songs_force
  | .playlists => playlists_force
  | .artists => artists_force
  | .movies => movies_force
  | .series => series_force
  | .episodes => episodes_force
  | .devices => devices_force
  | .users => users_force

/-- Dispatch to the Cached accessor of a collection key. -/
def cachedAccessor : CKey → Transport → EmbyState → List Entity × EmbyState × List Request
  | .albums => albums
  | .songs => songs
  | .playlists => playlists
  | .artists => artists
  | .movies => movies
  | .series => series
  | .episodes => episodes
  | .devices => devices
  | .users => users

/-- Whether the key is one of the seven item collections (devices and
users are fetched from dedicated endpoints without item parameters). -/
def CKey.isItem : CKey → Bool
  | .albums | .songs | .playlists | .artists | .movies | .series | .episodes => true
  | .devices | .users => false

/-- The IncludeItemTypes value of an item collection. -/
def CKey.itemType : CKey → String
  | .albums => "MusicAlbum"
  | .songs => "Audio"
  | .playlists => "Playlist"
  | .artists => "MusicArtist"
  | .movies => "Movie"
  | .series => "Series"
  | .episodes => "Episode"
  | .devices => ""
  | .users => ""

/-- The Fields projection of an item collection. -/
def CKey.fieldsStr : CKey → String
  | .albums => "Path,ParentId,Overview,Genres,Tags,Artists"
  | .songs => "Path,ParentId,Overview,Genres,Tags,Artists"
  | .playlists => "Path,ParentId,Overview"
  | .artists => "Path,ParentId,Overview,Genres,Tags"
  | .movies => "Path,ParentId,Overview,Genres,Tags,ProviderIds"
  | .series => "Path,ParentId,Overview,Genres,Tags"
  | .episodes => "Path,ParentId,Overview,Genres,Tags"
  | .devices => ""
  | .users => ""

/-- The single request issued by the Forced accessor of a key. -/
def CKey.request (k : CKey) : Request :=
  match k with
  | .devices => ⟨"/Devices", [("remote", "False")]⟩
  | .users => ⟨"/Users", [("remote", "False")]⟩
  | k => itemsRequest k.itemType k.fieldsStr

/-- The join of str.join: comma-separated concatenation of the keys of
the sort map, as in ",".join(sort_map.keys()). -/
def joinComma : List String → String
  | [] => ""
  | [x] => x
  | x :: xs => x ++ "," ++ joinComma xs

/-- Embeds the search_params dict built in Emby.search
(src/embypy/emby.py lines 87-92): remote=False, searchTerm=query, and,
only when strict_sort holds, IncludeItemTypes joined from the keys of
sort_map. -/
def searchParams (q : String) (m : List (String × Nat)) (strict : Bool) : List (String × String) :=
  let base := [("remote", "False"), ("searchTerm", q)]
  if strict then base ++ [("IncludeItemTypes", joinComma (m.map Prod.fst))] else base

/-- The hits of a search: the SearchHints of the response resolved
through the Resolver (src/embypy/emby.py lines 94-95). -/
def searchHits (t : Transport) (q : String) (m : List (String × Nat)) (strict : Bool) : List Entity :=
  processRecs (t.getJson "/Search/Hints/" (searchParams q m strict))

/-- The sort key of Emby.search line 98: sort_map.get(x.type, m_size)
with m_size = len(sort_map). -/
def sortKey (m : List (String × Nat)) (e : Entity) : Nat :=
  (m.lookup e.type).getD m.length

/-- Comparison by sort key; Python sorted is a stable sort by this key,
embedded below through the stable List.insertionSort. -/
def keyLe (m : List (String × Nat)) (a b : Entity) : Prop :=
  sortKey m a ≤ sortKey m b

instance (m : List (String × Nat)) : DecidableRel (keyLe m) :=
  fun a b => Nat.decLe (sortKey m a) (sortKey m b)

instance (m : List (String × Nat)) : IsTotal Entity (keyLe m) :=
  ⟨fun a b => Nat.le_total (sortKey m a) (sortKey m b)⟩

instance (m : List (String × Nat)) : IsTrans Entity (keyLe m) :=
  ⟨fun _ _ _ => Nat.le_trans⟩

/-- The default sort_map of Emby.search (src/embypy/emby.py line 63). -/
def defaultSortMap : List (String × Nat) :=
  [("BoxSet", 0), ("Series", 1), ("Movie", 2), ("Audio", 3), ("Person", 4)]

/-- Embeds Emby.search (src/embypy/emby.py lines 60-100): issue the
search request, resolve the hits, stably sort them by the sort key. -/
def search (t : Transport) (q : String) (m : List (String × Nat)) (strict : Bool) :
    List Entity × List Request :=
  (List.insertionSort (keyLe m) (searchHits t q m strict),
   [⟨"/Search/Hints/", searchParams q m strict⟩])

/-- Modelled from the spec: the body of the refresh loop of Emby.update
(src/embypy/emby.py lines 173-179).  The loop evaluates
getattr(self, key), a property wrapped by the dual-mode call convention
of section 4.5 of the spec (embypy/utils/asyncio.py is not under src/):
invoked inside the already-running suspension scheduler of update, the
wrapper returns a handle that the caller must itself await.  update
never awaits it, a handle is not a callable, so the guarded call
`if callable(func): func()` is skipped: the body leaves the state and
the request log unchanged, and the surrounding try/except has nothing
to catch. -/
def updateLoopBody (acc : EmbyState × List Request) (_key : String) : EmbyState × List Request :=
  acc

/-- Embeds Emby.update (src/embypy/emby.py lines 158-179): keys is
the key view of the old extras dict (still intact after self.extras is
rebound to a fresh empty dict), then the refresh loop runs over those
keys. -/
def update (_t : Transport) (s : EmbyState) : EmbyState × List Request :=
  let keys := s.extras.map Prod.fst
  let cleared : EmbyState := ⟨[]⟩
  keys.foldl updateLoopBody (cleared, [])

/-- The argument of Emby.info: nothing, one identifier, or a list of
identifiers. -/
inductive InfoArg where
  | noArg
  | ident (s : String)
  | idents (l : List String)
deriving DecidableEq

/-- Python truthiness of the obj_id argument, as tested by
`if obj_id:` in Emby.info: None, the empty string and the empty list
are falsy. -/
def InfoArg.truthy : InfoArg → Bool
  | .noArg => false
  | .ident s => !(s == "")
  | .idents l => !l.isEmpty

/-- The result of Emby.info: a resolved object, a list of resolved
objects, or the raw server status dict. -/
inductive InfoResult where
  | one (e : Entity)
  | many (es : List Entity)
  | status (st : String)
deriving DecidableEq

/-- The LookupError raised by Emby.info, carrying the message and the
offending obj_id argument exactly as passed. -/
structure LookupErr where
  msg : String
  offending : InfoArg
deriving DecidableEq

/-- Resolving the obj_id argument through the Resolver, propagating a
decode failure of the transport boundary. -/
def resolveArg (fetchRaw : String → Except Unit Rec) : InfoArg → Except Unit InfoResult
  | .noArg => .ok (.many [])
  | .ident s => (processOne fetchRaw (.ident s)).1.map .one
  | .idents l => (processList fetchRaw (l.map PInput.ident)).map .many

/-- Embeds Emby.info (src/embypy/emby.py lines 36-58): a truthy obj_id
is resolved, a JSONDecodeError becomes a LookupError carrying obj_id;
otherwise the raw server status from connector.info() (the serverStatus
parameter) is returned. -/
def info (fetchRaw : String → Except Unit Rec) (serverStatus : String) (a : InfoArg) :
    Except LookupErr InfoResult :=
  if a.truthy then
    match resolveArg fetchRaw a with
    | .ok r => .ok r
    | .error _ => .error ⟨"Error object with that id does not exist", a⟩
  else
    .ok (.status serverStatus)

/-- Embeds the Episode entity of src/embypy/objects/videos.py: the raw
object_dict, restricted to integer-valued fields, which is all the
claims about Episode need. -/
structure Episode where
  object_dict : List (String × Int)
deriving DecidableEq

/-- Embeds Episode.index_number (src/embypy/objects/videos.py lines
73-76): self.object_dict.get(IndexNumber, 1). -/
def Episode.index_number (e : Episode) : Int :=
  (e.object_dict.lookup "IndexNumber").getD 1

/-- Embeds Episode.episode_number (src/embypy/objects/videos.py lines
82-84): an alias of index_number. -/
def Episode.episode_number (e : Episode) : Int :=
  e.index_number

/-- A transport whose every response is empty. -/
def emptyTransport : Transport :=
  ⟨fun _ _ => []⟩

/-- A transport answering every query with a single MusicAlbum record. -/
def albumTransport : Transport :=
  ⟨fun _ _ => [⟨"a1", "MusicAlbum"⟩]⟩

/-- The state of a root object right after a forced albums fetch
against albumTransport. -/
def stateWithAlbums : EmbyState :=
  (albums_force albumTransport ⟨[]⟩).2.1

/-- A sort map carrying a priority not below its own size. -/
def highPriorityMap : List (String × Nat) :=
  [("Movie", 2)]

/-- A transport returning one Movie hit followed by one Person hit. -/
def moviePersonTransport : Transport :=
  ⟨fun _ _ => [⟨"m1", "Movie"⟩, ⟨"p1", "Person"⟩]⟩

/-- The sort map of the sort-stability example of section 8 of the
spec. -/
def specSortMap : List (String × Nat) :=
  [("Movie", 0), ("Series", 1)]

/-- A transport returning the hits of the sort-stability example of
section 8 of the spec. -/
def specHitsTransport : Transport :=
  ⟨fun _ _ => [⟨"sA", "Series"⟩, ⟨"mB", "Movie"⟩, ⟨"mC", "Movie"⟩, ⟨"pD", "Person"⟩]⟩

/-- A transport boundary on which every direct identifier fetch fails
to decode. -/
def failingFetch : String → Except Unit Rec :=
  fun _ => .error ()

/-- A transport boundary resolving every identifier to a Movie record
with that id. -/
def okFetch : String → Except Unit Rec :=
  fun s => .ok ⟨s, "Movie"⟩

/-- A mixed resolver input: an entity, a record, and an identifier. -/
def mixedInputs : List PInput :=
  [.entity ⟨"e0", "Audio"⟩, .record ⟨"r0", "Series"⟩, .ident "i1"]

/-- The resolution of mixedInputs through okFetch, in input order. -/
def mixedOutputs : List Entity :=
  [⟨"e0", "Audio"⟩, ⟨"r0", "Series"⟩, ⟨"i1", "Movie"⟩]

/-- A sort map with the single entry Movie at priority 0, every
priority below the size of the map. -/
def movieOnlyMap : List (String × Nat) :=
  [("Movie", 0)]

/-- A transport returning two unmapped Person hits around one mapped
Movie hit. -/
def stabilityTransport : Transport :=
  ⟨fun _ _ => [⟨"p1", "Person"⟩, ⟨"m1", "Movie"⟩, ⟨"p2", "Person"⟩]⟩

/-- Helper: the key just assigned by setExtra is found by lookup. -/
theorem lookup_setExtra_self (xs : List (String × List Entity)) (k : String) (v : List Entity) :
    (setExtra xs k v).lookup k = some v := by
  induction xs with
  | nil => simp [setExtra, List.lookup]
  | cons p rest ih =>
    obtain ⟨k', v'⟩ := p
    by_cases h : k' = k
    · simp [setExtra, h, List.lookup]
    · simp [setExtra, h, List.lookup, ih, beq_eq_false_iff_ne.mpr (Ne.symm h)]

/-- Helper: a successful lookup comes from a member of the list. -/
theorem lookup_mem {β : Type} (k : String) (v : β) :
    ∀ xs : List (String × β), xs.lookup k = some v → (k, v) ∈ xs := by
  intro xs
  induction xs with
  | nil => intro h; simp [List.lookup] at h
  | cons p rest ih =>
    obtain ⟨k', v'⟩ := p
    intro h
    by_cases hk : k = k'
    · subst hk
      simp [List.lookup] at h
      subst h
      exact List.mem_cons_self _ _
    · simp [List.lookup, beq_eq_false_iff_ne.mpr hk] at h
      exact List.mem_cons_of_mem _ (ih h)

/-- Helper: the refresh loop of update leaves its accumulator unchanged. -/
theorem foldl_updateLoopBody (keys : List String) (acc : EmbyState × List Request) :
    keys.foldl updateLoopBody acc = acc := by
  induction keys generalizing acc with
  | nil => rfl
  | cons k ks ih => simpa [updateLoopBody] using ih acc

/-- Helper: update always clears the cache and issues no request. -/
theorem update_eq (t : Transport) (s : EmbyState) : update t s = (⟨[]⟩, []) := by
  simp [update, foldl_updateLoopBody]

/-- Helper: insertion sort by the search sort key is stable, stated as
preservation of the sublist of entities having any fixed key. -/
theorem filter_sortKey_insertionSort (m : List (String × Nat)) (l : List Entity) (k : Nat) :
    (List.insertionSort (keyLe m) l).filter (fun e => sortKey m e = k)
      = l.filter (fun e => sortKey m e = k) := by
  have hpair : (l.filter (fun e => sortKey m e = k)).Pairwise (keyLe m) := by
    refine List.pairwise_of_forall_mem_list ?_
    intro a ha b hb
    have ha2 := (List.mem_filter.mp ha).2
    have hb2 := (List.mem_filter.mp hb).2
    simp only [decide_eq_true_eq] at ha2 hb2
    unfold keyLe
    omega
  have hsub : (l.filter (fun e => sortKey m e = k)).Sublist (List.insertionSort (keyLe m) l) :=
    List.sublist_insertionSort hpair (List.filter_sublist l)
  have hsub2 : (l.filter (fun e => sortKey m e = k)).Sublist
      ((List.insertionSort (keyLe m) l).filter (fun e => sortKey m e = k)) := by
    have h2 := List.Sublist.filter (fun e => decide (sortKey m e = k)) hsub
    simpa [List.filter_filter] using h2
  have hlen : ((List.insertionSort (keyLe m) l).filter (fun e => sortKey m e = k)).length
      = (l.filter (fun e => sortKey m e = k)).length :=
    ((List.perm_insertionSort (keyLe m) l).filter _).length_eq
  exact (hsub2.eq_of_length hlen.symm).symm

/-- Claim C1, counterexample: with sortMap mapping Movie to priority 2
(not below the size 1 of the map), the search output places the
unmapped Person hit strictly before the mapped Movie hit, although the
hits arrived with the Movie first; so an entity whose type tag is
absent from sortMap is not placed after all mapped entities. -/
theorem search_sort_counterexample :
    List.lookup "Person" highPriorityMap = none ∧
    List.lookup "Movie" highPriorityMap = some 2 ∧
    searchHits moviePersonTransport "x" highPriorityMap false
      = [⟨"m1", "Movie"⟩, ⟨"p1", "Person"⟩] ∧
    (search moviePersonTransport "x" highPriorityMap false).1
      = [⟨"p1", "Person"⟩, ⟨"m1", "Movie"⟩] := by
  decide

/-- Claim C1, amended: search stably sorts the resolved hits by the key
sortMap.get(type, len(sortMap)): for every search call, without any
condition on the map, the output is a permutation of the hits, it is
sorted by that key, and entities sharing a key (in particular all
unmapped entities) keep their original relative order; and whenever
every mapped priority is below len(sortMap) - as in the default
sortMap - every entity after an unmapped one is itself unmapped, so
unmapped entities are placed after all mapped ones. -/
theorem search_sort_stable (t : Transport) (q : String) (m : List (String × Nat)) (strict : Bool) :
    (search t q m strict).1.Perm (searchHits t q m strict) ∧
    List.Sorted (keyLe m) (search t q m strict).1 ∧
    (∀ k : Nat, (search t q m strict).1.filter (fun e => sortKey m e = k)
        = (searchHits t q m strict).filter (fun e => sortKey m e = k)) ∧
    ((∀ p ∈ m, p.2 < m.length) →
      ∀ i j : Fin (search t q m strict).1.length, i < j →
        List.lookup ((search t q m strict).1.get i).type m = none →
        List.lookup ((search t q m strict).1.get j).type m = none) := by
  refine ⟨List.perm_insertionSort _ _, List.sorted_insertionSort _ _,
    fun k => filter_sortKey_insertionSort m (searchHits t q m strict) k, ?_⟩
  intro hvals i j hij hi
  have hsorted : List.Sorted (keyLe m) (search t q m strict).1 :=
    List.sorted_insertionSort _ _
  have hle := hsorted.rel_get_of_lt hij
  unfold keyLe sortKey at hle
  rw [hi] at hle
  simp only [Option.getD_none] at hle
  cases hj : List.lookup ((search t q m strict).1.get j).type m with
  | none => rfl
  | some v =>
    rw [hj] at hle
    simp only [Option.getD_some] at hle
    have hmem := lookup_mem _ v m hj
    have hlt := hvals _ hmem
    simp only at hlt
    omega

/-- Claim C1, witness: with the Movie-only map (priority 0, below the
map size 1) and hits Person, Movie, Person, the search output is sorted
by the sort key, and the unmapped-after-unmapped clause applies at the
concrete positions 1 and 2 of the output Movie, Person, Person. -/
theorem search_sort_stable_witness :
    List.Sorted (keyLe movieOnlyMap) (search stabilityTransport "x" movieOnlyMap false).1 ∧
    List.lookup ((search stabilityTransport "x" movieOnlyMap false).1.get ⟨2, by decide⟩).type
      movieOnlyMap = none :=
  ⟨(search_sort_stable stabilityTransport "x" movieOnlyMap false).2.1,
   (search_sort_stable stabilityTransport "x" movieOnlyMap false).2.2.2 (by decide)
     ⟨1, by decide⟩ ⟨2, by decide⟩ (by decide) (by decide)⟩

/-- Claim C2 (code bug): after caching the albums collection, update
clears every cache entry but issues no transport request at all - the
refresh loop obtains un-awaited handles that are not callable - so the
previously-cached key albums is not re-fetched, contrary to the claim
and to the docstring of update (reload all cached information). -/
theorem update_no_refetch :
    stateWithAlbums.extras = [("albums", [⟨"a1", "MusicAlbum"⟩])] ∧
    update albumTransport stateWithAlbums = (⟨[]⟩, []) := by
  decide

/-- Claim C3, counterexample: a forced albums fetch that resolved the
empty sequence caches it, and the immediately following cached accessor
call issues another transport request (the empty cached list is falsy),
contradicting the claim that the cached accessor returns the fetched
sequence without issuing another request. -/
theorem cache_monotonic_counterexample :
    (albums_force emptyTransport ⟨[]⟩).1 = [] ∧
    (albums emptyTransport (albums_force emptyTransport ⟨[]⟩).2.1).2.2 ≠ [] := by
  decide

/-- Claim C3, amended: immediately after a Forced accessor call that
fetched and resolved a NON-EMPTY sequence, the Cached accessor for the
same key returns exactly that sequence, leaves the state unchanged and
issues no transport request; and after update (which clears the cache
and, its refresh handles never being awaited, repopulates nothing) the
next Cached accessor call performs a fresh fetch: it behaves as the
Forced accessor and issues the collection request. -/
theorem cache_monotonic (t : Transport) (k : CKey) (s s₀ : EmbyState)
    (h : (forceAccessor k t s).1 ≠ []) :
    cachedAccessor k t (forceAccessor k t s).2.1
      = ((forceAccessor k t s).1, (forceAccessor k t s).2.1, []) ∧
    (update t s₀).1 = ⟨[]⟩ ∧
    cachedAccessor k t (update t s₀).1 = forceAccessor k t (update t s₀).1 ∧
    (cachedAccessor k t (update t s₀).1).2.2 = [CKey.request k] := by
  rw [update_eq]
  refine ⟨?_, rfl, ?_, ?_⟩
  · cases k <;>
      simp_all [cachedAccessor, forceAccessor,
        albums, songs, playlists, artists, movies, series, episodes, devices, users,
        albums_force, songs_force, playlists_force, artists_force, movies_force,
        series_force, episodes_force, devices_force, users_force,
        lookup_setExtra_self]
  · cases k <;>
      simp [cachedAccessor, forceAccessor,
        albums, songs, playlists, artists, movies, series, episodes, devices, users,
        List.lookup]
  · cases k <;>
      simp [cachedAccessor, forceAccessor,
        albums, songs, playlists, artists, movies, series, episodes, devices, users,
        albums_force, songs_force, playlists_force, artists_force, movies_force,
        series_force, episodes_force, devices_force, users_force,
        CKey.request, CKey.itemType, CKey.fieldsStr, List.lookup]

/-- Claim C3, witness: with a transport answering one album record, the
forced fetch resolves a non-empty sequence and the cached accessor
right after it returns exactly that sequence with no request. -/
theorem cache_monotonic_witness :
    cachedAccessor .albums albumTransport (forceAccessor .albums albumTransport ⟨[]⟩).2.1
      = ((forceAccessor .albums albumTransport ⟨[]⟩).1,
         (forceAccessor .albums albumTransport ⟨[]⟩).2.1, []) :=
  (cache_monotonic albumTransport .albums ⟨[]⟩ ⟨[]⟩ (by decide)).1

/-- Claim C4: for every collection key, the Cached accessor returns the
cached sequence when the cache entry is present and non-empty;
otherwise it performs the Forced accessor, whose result is stored in
the cache entry for that key and returned. -/
theorem cached_accessor_spec (k : CKey) (t : Transport) (s : EmbyState) :
    (∀ v, s.extras.lookup (CKey.name k) = some v → v ≠ [] →
      cachedAccessor k t s = (v, s, [])) ∧
    ((s.extras.lookup (CKey.name k)).getD [] = [] →
      cachedAccessor k t s = forceAccessor k t s ∧
      (forceAccessor k t s).2.1.extras
        = setExtra s.extras (CKey.name k) (forceAccessor k t s).1) := by
  cases k <;>
    refine ⟨fun v hv hne => ?_, fun hemp => ⟨?_, ?_⟩⟩ <;>
    simp_all [cachedAccessor, forceAccessor, CKey.name,
      albums, songs, playlists, artists, movies, series, episodes, devices, users,
      albums_force, songs_force, playlists_force, artists_force, movies_force,
      series_force, episodes_force, devices_force, users_force]

/-- Claim C4, witness: with the albums entry cached and non-empty, the
cached accessor returns it unchanged with no request. -/
theorem cached_accessor_spec_witness :
    cachedAccessor .albums albumTransport stateWithAlbums
      = ([⟨"a1", "MusicAlbum"⟩], stateWithAlbums, []) :=
  (cached_accessor_spec .albums albumTransport stateWithAlbums).1
    [⟨"a1", "MusicAlbum"⟩] (by decide) (by decide)

/-- Claim C5: when info is given a truthy identifier argument and the
resolution reports a decode failure, info fails with the LookupError
carrying the offending argument; with no identifier given, info
returns the raw server status. -/
theorem info_lookup_spec (fetchRaw : String → Except Unit Rec) (st : String) (a : InfoArg) :
    (a.truthy = true → ∀ u : Unit, resolveArg fetchRaw a = .error u →
      info fetchRaw st a = .error ⟨"Error object with that id does not exist", a⟩) ∧
    info fetchRaw st .noArg = .ok (.status st) := by
  constructor
  · intro ht u herr
    simp [info, ht, herr]
  · rfl

/-- Claim C5, witness: on a transport whose every identifier fetch
fails to decode, info on the identifier nonexistent-id fails with the
LookupError carrying that identifier. -/
theorem info_lookup_spec_witness :
    info failingFetch "status" (.ident "nonexistent-id")
      = .error ⟨"Error object with that id does not exist", .ident "nonexistent-id"⟩ :=
  (info_lookup_spec failingFetch "status" (.ident "nonexistent-id")).1 rfl () rfl

/-- Claim C6: with strictSort set, the single search request carries an
IncludeItemTypes parameter listing exactly the keys of sortMap (joined
by commas); without strictSort the request carries only remote and
searchTerm, hence no IncludeItemTypes parameter at all. -/
theorem strict_sort_filtering (t : Transport) (q : String) (m : List (String × Nat)) :
    (search t q m true).2 =
      [⟨"/Search/Hints/",
        [("remote", "False"), ("searchTerm", q),
         ("IncludeItemTypes", joinComma (m.map Prod.fst))]⟩] ∧
    (search t q m false).2 =
      [⟨"/Search/Hints/", [("remote", "False"), ("searchTerm", q)]⟩] ∧
    ((search t q m false).2.all
        (fun r => r.params.all (fun p => p.1 != "IncludeItemTypes"))) = true :=
  ⟨rfl, rfl, rfl⟩

/-- Claim C7: the Forced accessor of each of the seven item collections
issues exactly one transport query whose parameters carry
Recursive=true, the IncludeItemTypes filter for the collection, the
Fields projection, SortBy=SortName and SortOrder=Ascending; it passes
the response through the Resolver, unconditionally overwrites the cache
entry of its key with the resolved sequence, and returns it. -/
theorem forced_accessor_spec (k : CKey) (t : Transport) (s : EmbyState)
    (h : CKey.isItem k = true) :
    ("Recursive", "true") ∈ (CKey.request k).params ∧
    ("IncludeItemTypes", CKey.itemType k) ∈ (CKey.request k).params ∧
    ("Fields", CKey.fieldsStr k) ∈ (CKey.request k).params ∧
    ("SortBy", "SortName") ∈ (CKey.request k).params ∧
    ("SortOrder", "Ascending") ∈ (CKey.request k).params ∧
    forceAccessor k t s =
      (processRecs (t.getJson (CKey.request k).path (CKey.request k).params),
       ⟨setExtra s.extras (CKey.name k)
          (processRecs (t.getJson (CKey.request k).path (CKey.request k).params))⟩,
       [CKey.request k]) := by
  cases k <;>
    first
      | exact absurd h (by decide)
      | exact ⟨by decide, by decide, by decide, by decide, by decide, rfl⟩

/-- Claim C7, witness: the albums Forced accessor on the empty state
issues the MusicAlbum item query with the fixed parameters, stores the
resolved result under albums and returns it. -/
theorem forced_accessor_spec_witness :
    ("Recursive", "true") ∈ (CKey.request .albums).params ∧
    ("IncludeItemTypes", CKey.itemType .albums) ∈ (CKey.request .albums).params ∧
    ("Fields", CKey.fieldsStr .albums) ∈ (CKey.request .albums).params ∧
    ("SortBy", "SortName") ∈ (CKey.request .albums).params ∧
    ("SortOrder", "Ascending") ∈ (CKey.request .albums).params ∧
    forceAccessor .albums albumTransport ⟨[]⟩ =
      (processRecs (albumTransport.getJson (CKey.request .albums).path
        (CKey.request .albums).params),
       ⟨setExtra ([] : List (String × List Entity)) (CKey.name .albums)
          (processRecs (albumTransport.getJson (CKey.request .albums).path
            (CKey.request .albums).params))⟩,
       [CKey.request .albums]) :=
  forced_accessor_spec .albums albumTransport ⟨[]⟩ rfl

/-- Claim C8: when the Resolver succeeds on a sequence of mixed inputs,
the returned sequence has the same length and corresponds to the input
sequence pointwise in order: the element at every position is the
resolution of the input at that same position. -/
theorem process_order_preserving (fetchRaw : String → Except Unit Rec)
    (ins : List PInput) (es : List Entity)
    (h : processList fetchRaw ins = .ok es) :
    es.length = ins.length ∧
    List.Forall₂ (fun x e => (processOne fetchRaw x).1 = .ok e) ins es := by
  induction ins generalizing es with
  | nil =>
    rw [processList] at h
    injection h with h2
    subst h2
    exact ⟨rfl, List.Forall₂.nil⟩
  | cons x xs ih =>
    rw [processList] at h
    split at h
    · next e es' he hes =>
        injection h with h2
        subst h2
        obtain ⟨hlen, hall⟩ := ih es' hes
        exact ⟨by simp [hlen], List.Forall₂.cons he hall⟩
    · next u _ => exact absurd h (by simp)
    · next u _ _ => exact absurd h (by simp)

/-- Claim C8, witness: a mixed input of an entity, a record and an
identifier resolves to a sequence of the same length three, pointwise
in input order. -/
theorem process_order_preserving_witness :
    mixedOutputs.length = mixedInputs.length ∧
    List.Forall₂ (fun x e => (processOne okFetch x).1 = .ok e) mixedInputs mixedOutputs :=
  process_order_preserving okFetch mixedInputs mixedOutputs rfl

/-- Claim C9: the Resolver returns an already-resolved entity itself
unchanged and performs zero transport fetches on it. -/
theorem process_entity_identity (fetchRaw : String → Except Unit Rec) (e : Entity) :
    processOne fetchRaw (.entity e) = (.ok e, 0) :=
  rfl

/-- Claim C10: an Episode whose raw record has no IndexNumber field
yields 1 from index_number, and episode_number always returns the same
value as index_number. -/
theorem episode_index_number_default (e : Episode)
    (h : e.object_dict.lookup "IndexNumber" = none) :
    e.index_number = 1 ∧ e.episode_number = e.index_number :=
  ⟨by simp [Episode.index_number, h], rfl⟩

/-- Claim C10, witness: an Episode whose record carries only SeasonId
has index_number 1 and episode_number equal to index_number. -/
theorem episode_index_number_default_witness :
    Episode.index_number ⟨[("SeasonId", 3)]⟩ = 1 ∧
    Episode.episode_number ⟨[("SeasonId", 3)]⟩ = Episode.index_number ⟨[("SeasonId", 3)]⟩ :=
  episode_index_number_default ⟨[("SeasonId", 3)]⟩ rfl
